import Mathlib

/-!
# Verification of the saucebot `sauce` cog

A shallow embedding of `saucebot/cogs/sauce.py` (the `Sauce` cog): the image
resolver, the disambiguation prompt, the member-level rate limiter, the
cache-first sauce lookup service, the trace.moe preview reconciler, and the
`apikey` registration command.  Pure control flow is translated function by
function; external I/O (Discord, SauceNao, trace.moe, the relational store) is
made explicit: reaction events, remote responses and store contents are inputs,
and the side effects a run performs are recorded as an event list.

Parts of the repository that live outside the provided sources
(`saucebot/models/database.py`, `saucebot/helpers.py`, `saucebot/tracemoe.py`)
are modelled from the specification, and each such definition says so in its
doc comment.
-/

namespace Saucebot

/-- Is `pre` a leading segment of `s`? -/
def charsLead : List Char → List Char → Bool
  | [], _ => true
  | _ :: _, [] => false
  | a :: as, b :: bs => a == b && charsLead as bs

/-- Does `needle` occur as a contiguous segment of the second list? -/
def charsContain (needle : List Char) : List Char → Bool
  | [] => charsLead needle []
  | c :: rest => charsLead needle (c :: rest) || charsContain needle rest

/-- Python `str.startswith` (executable, so the kernel can evaluate it). -/
def strHasPrefix (s pre : String) : Bool := charsLead pre.data s.data

/-- Python `str.endswith` for a single suffix (executable, so the kernel can
evaluate it). -/
def strHasSuffix (s suf : String) : Bool :=
  charsLead suf.data.reverse s.data.reverse

/-- Drop the first `n` characters of a string. -/
def strDrop (s : String) (n : Nat) : String := String.mk (s.data.drop n)

/-- Drop the last `n` characters of a string. -/
def strDropRight (s : String) (n : Nat) : String :=
  String.mk (s.data.take (s.data.length - n))

/-- The character length of a string. -/
def strLength (s : String) : Nat := s.data.length

/-- A Discord attachment, reduced to the two fields `sauce.py` reads:
`attachment.url` and `attachment.proxy_url`.  An absent URL is the empty
string (falsy in Python). -/
structure Attachment where
  url : String
  proxyUrl : String
deriving DecidableEq, Repr

/-- A Discord message, reduced to the fields `sauce.py` reads during image
resolution: its attachments and its text content. -/
structure Message where
  attachments : List Attachment
  content : String
deriving DecidableEq, Repr

/-- The image filename suffixes accepted at sauce.py line 277, in source
order. -/
def imageExtensions : List String := [".jpg", ".png", ".gif", ".jpeg", ".webp"]

/-- The video filename suffixes accepted at sauce.py line 280, in source
order. -/
def videoExtensions : List String := [".mp4", ".webm", ".mov"]

/-- Embeds `Sauce._get_attachment_image` (sauce.py lines 265-281): an image
attachment yields its raw URL; a video attachment yields its proxy URL with
the `?format=jpeg` query parameter appended; anything else yields `None`. -/
def getAttachmentImage (a : Attachment) : Option String :=
  if a.url = "" then none
  else if imageExtensions.any (fun ext => strHasSuffix a.url ext) then
    some a.url
  else if videoExtensions.any (fun ext => strHasSuffix a.url ext) then
    some (a.proxyUrl ++ "?format=jpeg")
  else none

/-- Embeds `Sauce._get_image_attachments` (sauce.py lines 247-263): the
attachments of a message for which `_get_attachment_image` returns a value. -/
def getImageAttachments (m : Message) : List Attachment :=
  m.attachments.filter (fun a => (getAttachmentImage a).isSome)

/-- Python truthiness of the optional `url` command argument: `None` and the
empty string are falsy. -/
def urlTruthy : Option String → Bool
  | none => false
  | some s => s != ""

/-- Python `\s` on the ASCII range (the URLs and keys at stake are ASCII):
space, tab, newline, carriage return, vertical tab, form feed. -/
def pyIsSpace (c : Char) : Bool :=
  c = ' ' || c = '\t' || c = '\n' || c = '\x0d' || c = '\x0b' || c = '\x0c'

/-- Core of `IMAGE_URL_RE = ^https?://\S+(\.jpg|\.png|\.jpeg|\.webp)$`
(sauce.py line 31) against a whole string: a scheme, then at least one
non-whitespace character, then one of the four suffixes. -/
def imageUrlReCore (s : String) : Bool :=
  let rest :=
    if strHasPrefix s "https://" then some (strDrop s 8)
    else if strHasPrefix s "http://" then some (strDrop s 7)
    else none
  match rest with
  | none => false
  | some t =>
    [".jpg", ".png", ".jpeg", ".webp"].any (fun ext =>
      strHasSuffix t ext && decide (strLength ext < strLength t) &&
      (strDropRight t (strLength ext)).data.all (fun c => !pyIsSpace c))

/-- `re.match` of `IMAGE_URL_RE`: in Python an unanchored `$` also matches
just before one newline at the very end of the string. -/
def matchesImageUrlRe (s : String) : Bool :=
  imageUrlReCore s || (strHasSuffix s "\n" && imageUrlReCore (strDropRight s 1))

/-- The reaction event the disambiguation wait can observe: the invoking user
reacts with keycap number `k`, or nobody reacts within the 60-second
timeout. -/
inductive ReactionOutcome
  | reacted (k : Nat)
  | timeout
deriving DecidableEq, Repr

/-- The kinds of reply embeds `sauce.py` sends, named after the language
strings it renders. -/
inductive ReplyKind
  | noImages
  | badUrl
  | memberLimited
  | apiLimitExceeded
  | rejectedApiKey
  | apiOffline
  | notFound
  | sauceEmbed
deriving DecidableEq, Repr

/-- Observable side effects of a run of the command, in the order the code
performs them. -/
inductive Ev
  | resolveStart
  | sendPrompt
  | addReaction (k : Nat)
  | deletePrompt
  | deleteCmdMsg
  | reply (k : ReplyKind)
  | logQuery (url : String)
  | cacheFetch (url : String)
  | remoteSearch (url : String)
  | cacheWrite (url : String)
deriving DecidableEq, Repr

/-- The keycap numbers offered at sauce.py line 285:
`range(1, min(len(items), 10) + 1)`. -/
def offeredIndices (items : List Attachment) : List Nat :=
  List.range' 1 (min items.length 10)

/-- Embeds `Sauce._index_prompt` (sauce.py lines 283-300).  The prompt is sent
and one keycap reaction per offered index is added.  `reaction_check` (from
`saucebot/helpers.py`, modelled from spec 4.2: only the invoking user's
reactions with one of the offered emoji count, all others are ignored) filters
the wait, so a reaction outside the offered range is never delivered and the
wait ends in the timeout.  On a delivered reaction `k`, the `k`-th attachment
is returned (`items[keycap_to_int(reaction) - 1]`); on timeout the command
message and then the prompt are deleted and `None` is returned. -/
def indexPrompt (items : List Attachment) (r : ReactionOutcome) :
    Option Attachment × List Ev :=
  let offered := offeredIndices items
  let setup := Ev.sendPrompt :: offered.map Ev.addReaction
  match r with
  | .reacted k =>
    if offered.contains k then
      (items[k - 1]?, setup ++ [Ev.deletePrompt])
    else
      (none, setup ++ [Ev.deleteCmdMsg, Ev.deletePrompt])
  | .timeout => (none, setup ++ [Ev.deleteCmdMsg, Ev.deletePrompt])

/-- Embeds `Sauce._get_last_image_post` (sauce.py lines 219-245): walk the
channel history newest first; at the first message with qualifying
attachments, disambiguate if there are several and return
`_get_attachment_image` of the chosen one; otherwise return the message
content if it matches `IMAGE_URL_RE`; otherwise keep walking.  The `.error`
result marks the Python crash on a timed-out prompt: `_get_attachment_image`
is called with `None` and `attachment.url` raises `AttributeError`. -/
def getLastImagePost (r : ReactionOutcome) :
    List Message → Except Unit (Option String) × List Ev
  | [] => (.ok none, [])
  | m :: rest =>
    let atts := getImageAttachments m
    if atts.isEmpty then
      if matchesImageUrlRe m.content then (.ok (some m.content), [])
      else getLastImagePost r rest
    else
      if atts.length > 1 then
        match indexPrompt atts r with
        | (some a, evs) => (.ok (getAttachmentImage a), evs)
        | (none, evs) => (.error (), evs)
      else
        match atts with
        | a :: _ => (.ok (getAttachmentImage a), [])
        | [] => (.ok none, [])

/-- What `ctx.message.reference.resolved` turned out to be: a real
`discord.Message`, or something else (a deleted reference). -/
inductive RefResolution
  | message (m : Message)
  | deleted
deriving DecidableEq, Repr

/-- Outcome of the image-resolution phase of `Sauce.sauce`
(sauce.py lines 62-101). -/
inductive ResolveOutcome
  | crashed
  | noImage
  | resolved (url : String)
deriving DecidableEq, Repr

/-- Result of the image-resolution phase: the outcome, the value of the
`image_in_command` flag (line 63), whether `_get_last_image_post` was invoked
(line 90), and the side effects performed. -/
structure ResolveResult where
  outcome : ResolveOutcome
  imageInCommand : Bool
  searchedHistory : Bool
  events : List Ev
deriving DecidableEq, Repr

/-- Embeds sauce.py lines 90-101: `url = url or await
self._get_last_image_post(ctx)` followed by the final `if not url` error. -/
def finishFrom (url? : Option String) (imageInCommand : Bool)
    (r : ReactionOutcome) (history : List Message) (evs : List Ev) :
    ResolveResult :=
  if urlTruthy url? then
    ⟨.resolved (url?.getD ""), imageInCommand, false, evs⟩
  else
    match getLastImagePost r history with
    | (.error _, evs') => ⟨.crashed, imageInCommand, true, evs ++ evs'⟩
    | (.ok none, evs') => ⟨.noImage, imageInCommand, true, evs ++ evs'⟩
    | (.ok (some u), evs') =>
      if u = "" then ⟨.noImage, imageInCommand, true, evs ++ evs'⟩
      else ⟨.resolved u, imageInCommand, true, evs ++ evs'⟩

/-- Embeds sauce.py lines 79-101 as reached from inside the reply branch
(where `image_in_command` is false): `if not url` fails with the no-images
reply before the history search ever runs; a truthy url proceeds to line 90
(and, being truthy, never searches the history). -/
def afterReply (url? : Option String) (r : ReactionOutcome)
    (history : List Message) (evs : List Ev) : ResolveResult :=
  if urlTruthy url? then finishFrom url? false r history evs
  else ⟨.noImage, false, false, evs⟩

/-- Embeds the image-resolution phase of `Sauce.sauce` (sauce.py lines
62-101).  `image_in_command` is true when a truthy URL argument or a
qualifying attachment of the invoking message exists (line 63); the reply
branch (lines 66-87) runs only when a reference exists and
`image_in_command` is false.  A timed-out disambiguation inside the reply
branch crashes at line 74 (`attachment.url` on `None`). -/
def resolveImage (urlArg : Option String) (cmdMsg : Message)
    (ref : Option RefResolution) (r : ReactionOutcome)
    (history : List Message) : ResolveResult :=
  let imageInCommand :=
    urlTruthy urlArg || !(getImageAttachments cmdMsg).isEmpty
  match ref, imageInCommand with
  | some (.message refMsg), false =>
    let atts := getImageAttachments refMsg
    if atts.length > 1 then
      match indexPrompt atts r with
      | (some a, evs) => afterReply (some a.url) r history evs
      | (none, evs) => ⟨.crashed, false, false, evs⟩
    else
      match atts with
      | a :: _ => afterReply (some a.url) r history []
      | [] => afterReply urlArg r history []
  | some .deleted, false => afterReply urlArg r history []
  | _, _ => finishFrom urlArg imageInCommand r history []

/-- Embeds `Sauce._check_member_limited` (sauce.py lines 472-487):
`member_api_limit` of `0` (the fallback for an unset option) is falsy and
disables the check; otherwise the user's query-log count is compared with
`count >= member_limit`. -/
def checkMemberLimited (memberLimit : Int) (count : Nat) : Bool :=
  if memberLimit == 0 then false else decide (memberLimit ≤ (count : Int))

/-- A SauceNao lookup result as the cache sees it: the container class name
(the variant tag, e.g. `"AnimeSource"`), and the header and result
dictionaries it was built from (pysaucenao containers are functions of
exactly these two), kept as opaque serialized data. -/
structure SauceResult where
  resultClass : String
  header : String
  payload : String
deriving DecidableEq, Repr

/-- A row of the SauceCache table: variant tag, serialized header and
serialized result payload (spec section 3, CacheEntry). -/
structure CacheEntry where
  resultClass : String
  header : String
  result : String
deriving DecidableEq, Repr

/-- The cache store: URL-keyed entries, last write wins per URL. -/
abbrev CacheStore := List (String × CacheEntry)

/-- Modelled from the spec: `SauceCache.fetch` of
`saucebot/models/database.py` (not among the provided sources) — cache lookup
by exact URL string match (spec section 4.5 step 2). -/
def SauceCache.fetch (store : CacheStore) (url : String) : Option CacheEntry :=
  (store.find? (fun p => p.1 == url)).map Prod.snd

/-- Modelled from the spec: `SauceCache.add_or_update` of
`saucebot/models/database.py` (not among the provided sources) — store the
result's variant tag, header and payload keyed by the URL, overwriting any
existing entry (spec sections 3 and 4.5 step 4). -/
def SauceCache.addOrUpdate (store : CacheStore) (url : String)
    (s : SauceResult) : CacheStore :=
  (url, ⟨s.resultClass, s.header, s.payload⟩) ::
    store.filter (fun p => p.1 != url)

/-- Embeds sauce.py lines 322-323: `container =
getattr(pysaucenao.containers, cache.result_class)` followed by
`container(cache.header, cache.result)` — the cached result is rebuilt from
exactly the stored variant tag, header and payload. -/
def reconstructSauce (e : CacheEntry) : SauceResult :=
  ⟨e.resultClass, e.header, e.result⟩

/-- The `pysaucenao` exceptions caught at sauce.py lines 131-173. -/
inductive SnaoError
  | shortLimit
  | dailyLimit
  | invalidApiKey
  | invalidImage
  | otherError
deriving DecidableEq, Repr

/-- Embeds `Sauce._get_sauce` (sauce.py lines 302-347).  `remote` is the
behaviour of `await saucenao.from_url(url)`: an exception or the ordered
result list (of which line 331 takes the head).  The API-key selection at
lines 313-315 reads neither the cache nor the remote service and is not
traced.  The query is logged first (line 318), the cache is consulted next
(line 320); only on a miss is the remote search issued, and a non-empty
result is written back to the cache. -/
def getSauce (store : CacheStore)
    (remote : Except SnaoError (List SauceResult)) (url : String) :
    Except SnaoError (Option SauceResult) × CacheStore × List Ev :=
  let evs := [Ev.logQuery url, Ev.cacheFetch url]
  match SauceCache.fetch store url with
  | some e => (.ok (some (reconstructSauce e)), store, evs)
  | none =>
    match remote with
    | .error err => (.error err, store, evs ++ [Ev.remoteSearch url])
    | .ok results =>
      match results.head? with
      | some s =>
        (.ok (some s), SauceCache.addOrUpdate store url s,
          evs ++ [Ev.remoteSearch url, Ev.cacheWrite url])
      | none => (.ok none, store, evs ++ [Ev.remoteSearch url])

/-- One entry of the `docs` list of a trace.moe response, reduced to the two
fields sauce.py reads: `anilist_id` and `is_adult`. -/
structure TracemoeDoc where
  anilistId : Nat
  isAdult : Bool
deriving DecidableEq, Repr

/-- A trace.moe search response, reduced to its `docs` list. -/
structure TracemoeResponse where
  docs : List TracemoeDoc
deriving DecidableEq, Repr

/-- Embeds `Sauce._video_preview` (sauce.py lines 407-443).  `searchOutcome`
is the behaviour of `self.tracemoe.search` (the call sits inside the broad
`try`/`except` of lines 423-430, so any exception yields `(None, False)`);
`loadIdsOk` is the truth value of `await sauce.load_ids()`; `anilistId` is the
primary result's cross-reference id; `clip` stands for the bytes
`video_preview_natural` returns (the preview fetch of
`saucebot/tracemoe.py`, absent from the provided sources, is modelled from
spec section 6: `fetch_preview_clip(match) -> bytes`). -/
def videoPreview (configured : Bool)
    (searchOutcome : Except Unit TracemoeResponse) (loadIdsOk : Bool)
    (anilistId : Nat) (clip : String) : Option String × Bool :=
  if !configured then (none, false)
  else
    match searchOutcome with
    | .error _ => (none, false)
    | .ok resp =>
      match resp.docs with
      | [] => (none, false)
      | top :: _ =>
        if loadIdsOk then
          if anilistId != top.anilistId then (none, false)
          else (some clip, top.isAdult)
        else (none, false)

/-- Python's `needle in haystack` on strings: substring containment. -/
def pyStrIn (needle haystack : String) : Bool :=
  charsContain needle.data haystack.data

/-- All inputs a run of `Sauce.sauce` reads: configuration, the invoking
context, the invoking message and its reference, the one reaction event the
run may observe, the channel history, the behaviour of the external helpers
and services, and the persistent state. `urlValid` is
`saucebot.helpers.validate_url` (not among the provided sources), taken as an
arbitrary predicate. -/
structure CommandInput where
  targetChannelSetting : Option String
  channelIdStr : String
  authorId : Nat
  botUserId : Nat
  urlArg : Option String
  cmdMsg : Message
  ref : Option RefResolution
  reaction : ReactionOutcome
  history : List Message
  urlValid : String → Bool
  memberLimit : Int
  userCount : Nat
  store : CacheStore
  remote : Except SnaoError (List SauceResult)
  tracemoeConfigured : Bool
  tmResponse : Except Unit TracemoeResponse
  loadIdsOk : Bool
  anilistId : Nat
  previewClip : String
  channelNsfw : Bool

/-- How a run of `Sauce.sauce` ends. -/
inductive CommandOutcome
  | configTypeError
  | silent
  | crashed
  | erroredOut (k : ReplyKind)
  | notFound
  | replied (sauce : SauceResult) (previewAttached : Bool)
deriving DecidableEq, Repr

/-- The reply embed each caught `pysaucenao` exception produces
(sauce.py lines 131-173, named after the language strings used there). -/
def replyKindOfError : SnaoError → ReplyKind
  | .shortLimit => .apiLimitExceeded
  | .dailyLimit => .apiLimitExceeded
  | .invalidApiKey => .rejectedApiKey
  | .invalidImage => .noImages
  | .otherError => .apiOffline

/-- Embeds `Sauce.sauce` from line 103 on, given the result of the
image-resolution phase: URL validation (line 106), the member rate limit
(line 117), the lookup with its exception handlers (lines 128-173), the
anime preview block (lines 176-185), the not-found reply (lines 188-211),
the sauce reply (line 213) and the conditional deletion of the command
message (lines 216-217). -/
def saucePhase2 (inp : CommandInput) (res : ResolveResult) :
    CommandOutcome × CacheStore × List Ev :=
  let evs0 := Ev.resolveStart :: res.events
  match res.outcome with
  | .crashed => (.crashed, inp.store, evs0)
  | .noImage =>
    (.erroredOut .noImages, inp.store, evs0 ++ [Ev.reply .noImages])
  | .resolved url =>
    if !inp.urlValid url then
      (.erroredOut .badUrl, inp.store, evs0 ++ [Ev.reply .badUrl])
    else if checkMemberLimited inp.memberLimit inp.userCount then
      (.erroredOut .memberLimited, inp.store,
        evs0 ++ [Ev.reply .memberLimited])
    else
      match getSauce inp.store inp.remote url with
      | (.error e, store', evs1) =>
        (.erroredOut (replyKindOfError e), store',
          evs0 ++ evs1 ++ [Ev.deleteCmdMsg, Ev.reply (replyKindOfError e)])
      | (.ok osauce, store', evs1) =>
        match osauce with
        | none => (.notFound, store', evs0 ++ evs1 ++ [Ev.reply .notFound])
        | some s =>
          let pv :=
            if s.resultClass == "AnimeSource" then
              videoPreview inp.tracemoeConfigured inp.tmResponse
                inp.loadIdsOk inp.anilistId inp.previewClip
            else (none, false)
          let previewAttached := pv.1.isSome && (!pv.2 || inp.channelNsfw)
          let evs2 := evs0 ++ evs1 ++ [Ev.reply .sauceEmbed]
          if !res.imageInCommand && inp.ref.isNone then
            (.replied s previewAttached, store', evs2 ++ [Ev.deleteCmdMsg])
          else
            (.replied s previewAttached, store', evs2)

/-- Embeds `Sauce.sauce` (sauce.py lines 49-217).  The channel/author gate of
lines 51-56 runs first: with no `Discord.channel_id` configured the
membership test `str(channel_id) not in None` raises `TypeError`; with a
configured setting, Python's `in` on strings is substring containment, and a
channel id not contained in the setting — or the bot being the author —
returns silently before anything else happens. -/
def sauceCommand (inp : CommandInput) : CommandOutcome × CacheStore × List Ev :=
  match inp.targetChannelSetting with
  | none => (.configTypeError, inp.store, [])
  | some setting =>
    if !pyStrIn inp.channelIdStr setting || inp.authorId == inp.botUserId then
      (.silent, inp.store, [])
    else
      saucePhase2 inp
        (resolveImage inp.urlArg inp.cmdMsg inp.ref inp.reaction inp.history)

/-- Core of `self._re_api_key = ^[a-zA-Z0-9]{40}$` (sauce.py line 36) against
a whole string: exactly forty ASCII alphanumeric characters. -/
def apiKeyReCore (s : String) : Bool :=
  strLength s == 40 && s.data.all Char.isAlphanum

/-- `re.match` of the API-key pattern: in Python an unanchored `$` also
matches just before one newline at the very end of the string, so forty
alphanumerics followed by a single trailing newline also pass. -/
def matchesApiKeyRe (s : String) : Bool :=
  apiKeyReCore s || (strHasSuffix s "\n" && apiKeyReCore (strDropRight s 1))

/-- The account tier reported by `saucenao.test()`; the code only compares it
against the `ACCOUNT_ENHANCED` constant. -/
inductive AccountTier
  | enhanced
  | free
  | unregistered
deriving DecidableEq, Repr

/-- The fields of the `saucenao.test()` result that sauce.py reads:
`test.success` and `test.account_type`. -/
structure ApiTestResult where
  success : Bool
  accountType : AccountTier
deriving DecidableEq, Repr

/-- The guild-to-API-key table. -/
abbrev GuildKeys := List (Nat × String)

/-- Modelled from the spec: `Servers.register` of
`saucebot/models/database.py` (not among the provided sources) — persist the
key as that guild's GuildApiKey, overwriting any prior key (spec sections 3
and 4.4). -/
def Servers.register (servers : GuildKeys) (guildId : Nat) (key : String) :
    GuildKeys :=
  (guildId, key) :: servers.filter (fun p => p.1 != guildId)

/-- Modelled from the spec: `Servers.lookup_guild` of
`saucebot/models/database.py` (not among the provided sources) — the key
registered for a guild, if any. -/
def Servers.lookupGuild (servers : GuildKeys) (guildId : Nat) :
    Option String :=
  (servers.find? (fun p => p.1 == guildId)).map Prod.snd

/-- How a run of `Sauce.apikey` ends, named after the spec's taxonomy. -/
inductive ApiKeyOutcome
  | badFormat
  | apiUnavailable
  | notEnhanced
  | registered
deriving DecidableEq, Repr

/-- Embeds `Sauce.apikey` (sauce.py lines 489-549): reject a key that fails
the format pattern; otherwise consult the live `saucenao.test()` result
(`test`): reject on failure, reject a non-enhanced account, and only then
register the key for the guild.  Every rejection leaves the table
untouched. -/
def apikeyCommand (key : String) (test : ApiTestResult)
    (servers : GuildKeys) (guildId : Nat) : ApiKeyOutcome × GuildKeys :=
  if !matchesApiKeyRe key then (.badFormat, servers)
  else if !test.success then (.apiUnavailable, servers)
  else if test.accountType != .enhanced then (.notEnhanced, servers)
  else (.registered, Servers.register servers guildId key)

/-- The events that belong to the sauce lookup service: the query log write,
the cache read, the remote search and the cache write. -/
def isLookupEv : Ev → Bool
  | .logQuery _ => true
  | .cacheFetch _ => true
  | .remoteSearch _ => true
  | .cacheWrite _ => true
  | _ => false

/-! ### Concrete instances used by witnesses and counterexamples -/

/-- A qualifying image attachment `b.jpg`. -/
def attB : Attachment := ⟨"https://cdn/b.jpg", "https://media/b.jpg"⟩

/-- A non-qualifying text attachment. -/
def attTxt : Attachment := ⟨"https://cdn/notes.txt", "https://media/notes.txt"⟩

/-- A qualifying image attachment `c.png`. -/
def attC : Attachment := ⟨"https://cdn/c.png", "https://media/c.png"⟩

/-- Two qualifying image attachments in one message. -/
def attA1 : Attachment := ⟨"https://cdn/a1.png", "https://media/a1.png"⟩

/-- Second of two qualifying image attachments in one message. -/
def attA2 : Attachment := ⟨"https://cdn/a2.png", "https://media/a2.png"⟩

/-- A qualifying video attachment `v.mp4`. -/
def attVid : Attachment := ⟨"https://cdn/v.mp4", "https://media/v.mp4"⟩

/-- An invocation that supplies both an explicit URL and attachment `b.jpg`,
in an allowed channel, from a non-bot author, with a member limit of 5
already used up 5 times. -/
def c4inp : CommandInput where
  targetChannelSetting := some "123"
  channelIdStr := "123"
  authorId := 1
  botUserId := 2
  urlArg := some "https://x/a.png"
  cmdMsg := ⟨[], ""⟩
  ref := none
  reaction := .timeout
  history := []
  urlValid := fun _ => true
  memberLimit := 5
  userCount := 5
  store := []
  remote := .ok []
  tracemoeConfigured := false
  tmResponse := .error ()
  loadIdsOk := false
  anilistId := 0
  previewClip := ""
  channelNsfw := false

/-- A cached anime-type result. -/
def c9entry : CacheEntry := ⟨"AnimeSource", "header", "payload"⟩

/-- An invocation whose lookup hits the cache with an anime-type result while
trace.moe reports anilist id 200 against the primary's 100. -/
def c9inp : CommandInput where
  targetChannelSetting := some "123"
  channelIdStr := "123"
  authorId := 1
  botUserId := 2
  urlArg := some "https://x/a.png"
  cmdMsg := ⟨[], ""⟩
  ref := none
  reaction := .timeout
  history := []
  urlValid := fun _ => true
  memberLimit := 0
  userCount := 0
  store := [("https://x/a.png", c9entry)]
  remote := .ok []
  tracemoeConfigured := true
  tmResponse := .ok ⟨[⟨200, false⟩]⟩
  loadIdsOk := true
  anilistId := 100
  previewClip := "clip"
  channelNsfw := false

/-- An invocation from a channel whose id is not contained in the configured
target-channel setting. -/
def c10inp : CommandInput where
  targetChannelSetting := some "123"
  channelIdStr := "999"
  authorId := 1
  botUserId := 2
  urlArg := some "https://x/a.png"
  cmdMsg := ⟨[attB], ""⟩
  ref := none
  reaction := .timeout
  history := [⟨[attC], ""⟩]
  urlValid := fun _ => true
  memberLimit := 0
  userCount := 0
  store := []
  remote := .ok []
  tracemoeConfigured := false
  tmResponse := .error ()
  loadIdsOk := false
  anilistId := 0
  previewClip := ""
  channelNsfw := false

/-- Forty alphanumerics followed by one trailing newline: not a 40-character
alphanumeric string, yet `re.match` of `^[a-zA-Z0-9]{40}$` accepts it. -/
def c8key : String := String.mk (List.replicate 40 'A' ++ ['\n'])

/-- A well-formed 40-character alphanumeric key. -/
def c8goodKey : String := String.mk (List.replicate 40 'a')

/-! ### Theorems -/

/-- C5: writing a `SauceResult` to the cache under a URL and fetching that URL
back reconstructs a `SauceResult` equal in all fields, variant tag included
(round-trip law). -/
theorem c5_cache_round_trip (store : CacheStore) (url : String)
    (s : SauceResult) :
    (SauceCache.fetch (SauceCache.addOrUpdate store url s) url).map
        reconstructSauce = some s := by
  cases s
  simp [SauceCache.fetch, SauceCache.addOrUpdate, reconstructSauce]

/-- C6: in every execution of the sauce lookup service the query-log write is
the first event — before the cache read (the second event) and before any
remote call, for every remote behaviour including failures — and the remote
search event occurs exactly when the cache lookup misses. -/
theorem c6_log_first_remote_iff_miss (store : CacheStore)
    (remote : Except SnaoError (List SauceResult)) (url : String) :
    ((getSauce store remote url).2.2).head? = some (Ev.logQuery url)
    ∧ ((getSauce store remote url).2.2)[1]? = some (Ev.cacheFetch url)
    ∧ (Ev.remoteSearch url ∈ (getSauce store remote url).2.2
        ↔ SauceCache.fetch store url = none) := by
  rcases hf : SauceCache.fetch store url with _ | e
  · rcases remote with e | results
    · simp [getSauce, hf]
    · rcases hh : results.head? with _ | s <;> simp [getSauce, hf, hh]
  · simp [getSauce, hf]

/-- C10: with a configured target-channel setting, an invocation whose
channel id is not contained in the setting — or whose author is the bot
itself — returns silently: the state is untouched and no event at all (no
resolution, no reply, no query log, no error) is performed. -/
theorem c10_channel_gate_silent (inp : CommandInput) (setting : String)
    (hset : inp.targetChannelSetting = some setting)
    (hgate : pyStrIn inp.channelIdStr setting = false
              ∨ inp.authorId = inp.botUserId) :
    sauceCommand inp = (.silent, inp.store, []) := by
  simp only [sauceCommand, hset]
  rcases hgate with h | h
  · simp [h]
  · simp [h]

/-- Witness for C10 at a concrete input: channel id `"999"` is not a
substring of the setting `"123"`, so the run is silent. -/
theorem c10_channel_gate_silent_witness :
    sauceCommand c10inp = (.silent, c10inp.store, []) :=
  c10_channel_gate_silent c10inp "123" rfl (Or.inl (by decide))

/-- C8 counterexample: `c8key` has 41 characters, so it is not a string of
exactly 40 alphanumeric characters, yet the format pattern accepts it
(Python's `$` matches before a trailing newline) and the command registers
it. -/
theorem c8_trailing_newline_accepted :
    strLength c8key = 41
    ∧ apiKeyReCore c8key = false
    ∧ matchesApiKeyRe c8key = true
    ∧ apikeyCommand c8key ⟨true, .enhanced⟩ [] 7
        = (.registered, [(7, c8key)]) := by decide

/-- C8 (amended): a key is rejected with the bad-format reply — the table
untouched — unless it matches the pattern (forty alphanumerics, optionally
followed by one trailing newline); a matching key with a failed live test is
rejected as unavailable, a successful test with a non-enhanced tier is
rejected as free, and only when all checks pass is the key registered as the
guild's key, overwriting any prior one; every rejection leaves the stored
keys unchanged. -/
theorem c8_apikey_contract (key : String) (test : ApiTestResult)
    (servers : GuildKeys) (guildId : Nat) :
    (matchesApiKeyRe key = false →
      apikeyCommand key test servers guildId = (.badFormat, servers))
    ∧ (matchesApiKeyRe key = true → test.success = false →
      apikeyCommand key test servers guildId = (.apiUnavailable, servers))
    ∧ (matchesApiKeyRe key = true → test.success = true →
      test.accountType ≠ .enhanced →
      apikeyCommand key test servers guildId = (.notEnhanced, servers))
    ∧ (matchesApiKeyRe key = true → test.success = true →
      test.accountType = .enhanced →
      apikeyCommand key test servers guildId
          = (.registered, Servers.register servers guildId key)
        ∧ Servers.lookupGuild (Servers.register servers guildId key) guildId
          = some key) := by
  refine ⟨fun h1 => ?_, fun h1 h2 => ?_, fun h1 h2 h3 => ?_,
    fun h1 h2 h3 => ⟨?_, ?_⟩⟩
  · simp [apikeyCommand, h1]
  · simp [apikeyCommand, h1, h2]
  · simp [apikeyCommand, h1, h2, h3]
  · simp [apikeyCommand, h1, h2, h3]
  · simp [Servers.lookupGuild, Servers.register]

/-- Witness for C8 at concrete inputs: a well-formed key with a successful
enhanced test is registered over the prior key, and a malformed key is
rejected with the table unchanged. -/
theorem c8_apikey_contract_witness :
    (apikeyCommand c8goodKey ⟨true, .enhanced⟩ [(7, "old")] 7
        = (.registered, Servers.register [(7, "old")] 7 c8goodKey)
      ∧ Servers.lookupGuild (Servers.register [(7, "old")] 7 c8goodKey) 7
        = some c8goodKey)
    ∧ apikeyCommand "short" ⟨true, .enhanced⟩ [(7, "old")] 7
        = (.badFormat, [(7, "old")]) :=
  ⟨(c8_apikey_contract c8goodKey ⟨true, .enhanced⟩ [(7, "old")] 7).2.2.2
      (by decide) rfl rfl,
    (c8_apikey_contract "short" ⟨true, .enhanced⟩ [(7, "old")] 7).1
      (by decide)⟩

/-- C1 counterexample: with the explicit URL `https://x/a.png` and the
qualifying attachment `b.jpg` both present, the resolver yields the explicit
URL, not the attachment. -/
theorem c1_url_over_attachment :
    (resolveImage (some "https://x/a.png") ⟨[attB], ""⟩ none .timeout
        []).outcome = .resolved "https://x/a.png"
    ∧ (resolveImage (some "https://x/a.png") ⟨[attB], ""⟩ none .timeout
        []).outcome ≠ .resolved attB.url
    ∧ getImageAttachments ⟨[attB], ""⟩ = [attB] := by decide

/-- C1 (amended): whenever a non-empty explicit URL argument is supplied, the
resolver chooses the explicit URL as the image source, regardless of the
invoking message's attachments, of any reply reference and of the channel
history. -/
theorem c1_explicit_url_precedence (s : String) (hs : s ≠ "")
    (cmdMsg : Message) (ref : Option RefResolution) (r : ReactionOutcome)
    (history : List Message) :
    (resolveImage (some s) cmdMsg ref r history).outcome = .resolved s := by
  rcases ref with _ | rr
  · simp [resolveImage, finishFrom, urlTruthy, hs]
  · cases rr <;> simp [resolveImage, finishFrom, urlTruthy, hs]

/-- Witness for C1 (amended) at the claim's concrete input. -/
theorem c1_explicit_url_precedence_witness :
    "https://x/a.png" ≠ ""
    ∧ (resolveImage (some "https://x/a.png") ⟨[attB], ""⟩ none .timeout
        []).outcome = .resolved "https://x/a.png" :=
  ⟨by decide,
    c1_explicit_url_precedence "https://x/a.png" (by decide) ⟨[attB], ""⟩
      none .timeout []⟩

/-- C2: an invocation that is a reply, has no inline image of its own, and
whose replied-to message has no qualifying attachments fails with the
no-images error at once: for every channel history the result is the same and
the history search is never performed. -/
theorem c2_reply_without_images_fails_fast (urlArg : Option String)
    (cmdMsg refMsg : Message) (r : ReactionOutcome)
    (hurl : urlTruthy urlArg = false)
    (hcmd : getImageAttachments cmdMsg = [])
    (href : getImageAttachments refMsg = []) :
    ∀ history : List Message,
      resolveImage urlArg cmdMsg (some (.message refMsg)) r history
        = ⟨.noImage, false, false, []⟩ := by
  intro history
  simp [resolveImage, afterReply, hurl, hcmd, href]

/-- Witness for C2 at a concrete input: a reply to a message whose only
attachment is a text file, with an image-bearing history that is never
consulted. -/
theorem c2_reply_without_images_fails_fast_witness :
    urlTruthy none = false
    ∧ getImageAttachments ⟨[], ""⟩ = []
    ∧ getImageAttachments ⟨[attTxt], ""⟩ = []
    ∧ resolveImage none ⟨[], ""⟩ (some (.message ⟨[attTxt], ""⟩)) .timeout
        [⟨[attC], ""⟩] = ⟨.noImage, false, false, []⟩ :=
  ⟨by decide, by decide, by decide,
    c2_reply_without_images_fails_fast none ⟨[], ""⟩ ⟨[attTxt], ""⟩ .timeout
      (by decide) (by decide) (by decide) [⟨[attC], ""⟩]⟩

/-- C3 at its failing input: with two qualifying attachments the prompt does
offer exactly the two keycap reactions and a reaction with the second emoji
does return the second attachment; but on timeout, after deleting the command
message and the prompt, `_index_prompt` returns `None` and the caller
evaluates `attachment.url` on it — the resolution crashes instead of failing
like "no image resolved". -/
theorem c3_timeout_crash :
    indexPrompt [attA1, attA2] .timeout
      = (none, [.sendPrompt, .addReaction 1, .addReaction 2, .deleteCmdMsg,
          .deletePrompt])
    ∧ (indexPrompt [attA1, attA2] (.reacted 2)).1 = some attA2
    ∧ resolveImage none ⟨[], ""⟩ (some (.message ⟨[attA1, attA2], ""⟩))
        .timeout []
      = ⟨.crashed, false, false, [.sendPrompt, .addReaction 1, .addReaction 2,
          .deleteCmdMsg, .deletePrompt]⟩ := by decide

/-- C7 counterexample: a reply whose referenced message holds the single
qualifying video attachment `v.mp4` resolves to the raw attachment URL, not
to the proxy thumbnail URL the translation produces. -/
theorem c7_reply_video_raw_url :
    (resolveImage none ⟨[], ""⟩ (some (.message ⟨[attVid], ""⟩)) .timeout
        []).outcome = .resolved attVid.url
    ∧ getAttachmentImage attVid = some (attVid.proxyUrl ++ "?format=jpeg")
    ∧ attVid.url ≠ attVid.proxyUrl ++ "?format=jpeg" := by decide

/-- C7 (amended): for a qualifying video attachment the translation yields
the proxy URL with `?format=jpeg` appended, and the channel-history path
returns that translated URL; the replied-to-message path, however, returns
the raw attachment URL. -/
theorem c7_video_thumbnail_translation (a : Attachment) (r : ReactionOutcome)
    (hurl : a.url ≠ "")
    (himg : imageExtensions.any (fun ext => strHasSuffix a.url ext) = false)
    (hvid : videoExtensions.any (fun ext => strHasSuffix a.url ext) = true) :
    getAttachmentImage a = some (a.proxyUrl ++ "?format=jpeg")
    ∧ (getLastImagePost r [⟨[a], ""⟩]).1
        = .ok (some (a.proxyUrl ++ "?format=jpeg"))
    ∧ (resolveImage none ⟨[], ""⟩ (some (.message ⟨[a], ""⟩)) r []).outcome
        = .resolved a.url := by
  have h1 : getAttachmentImage a = some (a.proxyUrl ++ "?format=jpeg") := by
    simp [getAttachmentImage, hurl, himg, hvid]
  refine ⟨h1, ?_, ?_⟩
  · simp [getLastImagePost, getImageAttachments, List.filter, h1]
  · simp [resolveImage, afterReply, finishFrom, getImageAttachments,
      List.filter, h1, urlTruthy, hurl]

/-- Witness for C7 (amended) at the concrete attachment `v.mp4`. -/
theorem c7_video_thumbnail_translation_witness :
    getAttachmentImage attVid = some (attVid.proxyUrl ++ "?format=jpeg")
    ∧ (getLastImagePost .timeout [⟨[attVid], ""⟩]).1
        = .ok (some (attVid.proxyUrl ++ "?format=jpeg"))
    ∧ (resolveImage none ⟨[], ""⟩ (some (.message ⟨[attVid], ""⟩))
        .timeout []).outcome = .resolved attVid.url :=
  c7_video_thumbnail_translation attVid .timeout (by decide) (by decide)
    (by decide)

/-- Helper: prompt-shaped event lists contain no lookup events. -/
theorem isLookupEv_prompt_shape (l : List Nat) (tail : List Ev)
    (htail : ∀ e ∈ tail, isLookupEv e = false) :
    ∀ e ∈ Ev.sendPrompt :: (l.map Ev.addReaction ++ tail),
      isLookupEv e = false := by
  intro e he
  rcases List.mem_cons.mp he with rfl | he2
  · rfl
  rcases List.mem_append.mp he2 with hm | ht
  · rcases List.mem_map.mp hm with ⟨k, _, rfl⟩
    rfl
  · exact htail e ht

/-- The disambiguation prompt performs no lookup events. -/
theorem isLookupEv_indexPrompt (items : List Attachment)
    (r : ReactionOutcome) :
    ∀ e ∈ (indexPrompt items r).2, isLookupEv e = false := by
  have h2 : ∀ e ∈ [Ev.deleteCmdMsg, Ev.deletePrompt],
      isLookupEv e = false := by
    intro e he
    simp only [List.mem_cons, List.not_mem_nil, or_false] at he
    rcases he with rfl | rfl <;> rfl
  have h1 : ∀ e ∈ [Ev.deletePrompt], isLookupEv e = false := by
    intro e he
    rcases List.mem_singleton.mp he with rfl
    rfl
  cases r with
  | timeout =>
    intro e hm
    exact isLookupEv_prompt_shape (offeredIndices items)
      [Ev.deleteCmdMsg, Ev.deletePrompt] h2 e
      (by simpa [indexPrompt] using hm)
  | reacted k =>
    by_cases h : k ∈ offeredIndices items
    · intro e hm
      exact isLookupEv_prompt_shape (offeredIndices items)
        [Ev.deletePrompt] h1 e (by simpa [indexPrompt, h] using hm)
    · intro e hm
      exact isLookupEv_prompt_shape (offeredIndices items)
        [Ev.deleteCmdMsg, Ev.deletePrompt] h2 e
        (by simpa [indexPrompt, h] using hm)

/-- The channel-history search performs no lookup events. -/
theorem isLookupEv_getLastImagePost (r : ReactionOutcome)
    (hist : List Message) :
    ∀ e ∈ (getLastImagePost r hist).2, isLookupEv e = false := by
  induction hist with
  | nil => intro e hm; simp [getLastImagePost] at hm
  | cons m rest ih =>
    by_cases he : (getImageAttachments m).isEmpty = true
    · by_cases hc : matchesImageUrlRe m.content = true
      · intro e hm
        simp [getLastImagePost, he, hc] at hm
      · intro e hm
        exact ih e (by simpa [getLastImagePost, he, hc] using hm)
    · by_cases hl : (getImageAttachments m).length > 1
      · have hf := isLookupEv_indexPrompt (getImageAttachments m) r
        rcases hip : indexPrompt (getImageAttachments m) r with ⟨sel, evs⟩
        rw [hip] at hf
        intro e hm
        apply hf
        cases sel <;> simpa [getLastImagePost, he, hl, hip] using hm
      · rcases ha : getImageAttachments m with _ | ⟨a, t⟩
        · rw [ha] at he
          simp at he
        · rw [ha] at hl
          have ht : t = [] := by
            rcases t with _ | ⟨b, u⟩
            · rfl
            · exact absurd (by simp) hl
          subst ht
          intro e hm
          simp [getLastImagePost, ha] at hm

/-- Line 90 onward of the resolution performs no lookup events. -/
theorem isLookupEv_finishFrom (url? : Option String) (iic : Bool)
    (r : ReactionOutcome) (history : List Message) (evs : List Ev)
    (h : ∀ e ∈ evs, isLookupEv e = false) :
    ∀ e ∈ (finishFrom url? iic r history evs).events,
      isLookupEv e = false := by
  by_cases ht : urlTruthy url? = true
  · intro e hm
    exact h e (by simpa [finishFrom, ht] using hm)
  · have hg := isLookupEv_getLastImagePost r history
    rcases hgl : getLastImagePost r history with ⟨res, evs'⟩
    rw [hgl] at hg
    intro e hm
    have hm' : e ∈ evs ∨ e ∈ evs' := by
      rcases res with e0 | o
      · simpa [finishFrom, ht, hgl] using hm
      · rcases o with _ | u
        · simpa [finishFrom, ht, hgl] using hm
        · by_cases hu : u = "" <;> simpa [finishFrom, ht, hgl, hu] using hm
    rcases hm' with h1 | h1
    · exact h e h1
    · exact hg e h1

/-- The tail of the reply branch performs no lookup events. -/
theorem isLookupEv_afterReply (url? : Option String) (r : ReactionOutcome)
    (history : List Message) (evs : List Ev)
    (h : ∀ e ∈ evs, isLookupEv e = false) :
    ∀ e ∈ (afterReply url? r history evs).events, isLookupEv e = false := by
  by_cases ht : urlTruthy url? = true
  · intro e hm
    exact isLookupEv_finishFrom url? false r history evs h e
      (by simpa [afterReply, ht] using hm)
  · intro e hm
    exact h e (by simpa [afterReply, ht] using hm)

/-- Image resolution performs no lookup events: the query log, the cache and
the remote service are only touched by the lookup service afterwards. -/
theorem isLookupEv_resolveImage (urlArg : Option String) (cmdMsg : Message)
    (ref : Option RefResolution) (r : ReactionOutcome)
    (history : List Message) :
    ∀ e ∈ (resolveImage urlArg cmdMsg ref r history).events,
      isLookupEv e = false := by
  have hnil : ∀ e ∈ ([] : List Ev), isLookupEv e = false := by simp
  cases hic : (urlTruthy urlArg || !(getImageAttachments cmdMsg).isEmpty) with
  | true =>
    rcases ref with _ | rr
    · intro e hm
      exact isLookupEv_finishFrom urlArg true r history [] hnil e
        (by simpa [resolveImage, hic] using hm)
    · cases rr <;>
      · intro e hm
        exact isLookupEv_finishFrom urlArg true r history [] hnil e
          (by simpa [resolveImage, hic] using hm)
  | false =>
    rcases ref with _ | rr
    · intro e hm
      exact isLookupEv_finishFrom urlArg false r history [] hnil e
        (by simpa [resolveImage, hic] using hm)
    · cases rr with
      | deleted =>
        intro e hm
        exact isLookupEv_afterReply urlArg r history [] hnil e
          (by simpa [resolveImage, hic] using hm)
      | message refMsg =>
        by_cases hl : (getImageAttachments refMsg).length > 1
        · have hf := isLookupEv_indexPrompt (getImageAttachments refMsg) r
          rcases hip : indexPrompt (getImageAttachments refMsg) r
            with ⟨sel, evs⟩
          rw [hip] at hf
          cases sel with
          | none =>
            intro e hm
            exact hf e (by simpa [resolveImage, hic, hl, hip] using hm)
          | some a =>
            intro e hm
            exact isLookupEv_afterReply (some a.url) r history evs hf e
              (by simpa [resolveImage, hic, hl, hip] using hm)
        · rcases ha : getImageAttachments refMsg with _ | ⟨a, t⟩
          · intro e hm
            exact isLookupEv_afterReply urlArg r history [] hnil e
              (by simpa [resolveImage, hic, ha] using hm)
          · rw [ha] at hl
            have ht : t = [] := by
              rcases t with _ | ⟨b, u⟩
              · rfl
              · exact absurd (by simp) hl
            subst ht
            intro e hm
            exact isLookupEv_afterReply (some a.url) r history [] hnil e
              (by simpa [resolveImage, hic, ha] using hm)

/-- C4: a member limit of `0` (the fallback for an unset option) never
rejects, whatever the logged count; a positive limit that the user's logged
query count has reached rejects the invocation with the member-limited error
before the sauce lookup service runs — no query log write, no cache access
and no remote search happens. -/
theorem c4_member_quota (inp : CommandInput) (setting url : String)
    (hset : inp.targetChannelSetting = some setting)
    (hchan : pyStrIn inp.channelIdStr setting = true)
    (hauth : (inp.authorId == inp.botUserId) = false)
    (hres : (resolveImage inp.urlArg inp.cmdMsg inp.ref inp.reaction
        inp.history).outcome = .resolved url)
    (hvalid : inp.urlValid url = true)
    (hpos : 0 < inp.memberLimit)
    (hcount : inp.memberLimit ≤ (inp.userCount : Int)) :
    (∀ count : Nat, checkMemberLimited 0 count = false)
    ∧ (sauceCommand inp).1 = .erroredOut .memberLimited
    ∧ ((sauceCommand inp).2.2).filter isLookupEv = [] := by
  have hml : checkMemberLimited inp.memberLimit inp.userCount = true := by
    unfold checkMemberLimited
    have h0 : (inp.memberLimit == 0) = false := by
      simp only [beq_eq_false_iff_ne, ne_eq]
      omega
    rw [h0]
    simpa using hcount
  have hfilter := isLookupEv_resolveImage inp.urlArg inp.cmdMsg
    inp.ref inp.reaction inp.history
  rcases hr : resolveImage inp.urlArg inp.cmdMsg inp.ref inp.reaction
    inp.history with ⟨out, iic, sh, evs⟩
  rw [hr] at hres hfilter
  have hout : out = ResolveOutcome.resolved url := hres
  subst hout
  have htrace : sauceCommand inp
      = (.erroredOut .memberLimited, inp.store,
          Ev.resolveStart :: (evs ++ [Ev.reply .memberLimited])) := by
    simp [sauceCommand, hset, hchan, hauth, hr, saucePhase2, hvalid, hml]
  refine ⟨fun count => by simp [checkMemberLimited], ?_, ?_⟩
  · rw [htrace]
  · rw [htrace]
    rw [List.filter_eq_nil_iff]
    intro a ha
    rcases List.mem_cons.mp ha with rfl | ha2
    · simp [isLookupEv]
    rcases List.mem_append.mp ha2 with h1 | h1
    · simp [hfilter a h1]
    · rcases List.mem_singleton.mp h1 with rfl
      simp [isLookupEv]

/-- Witness for C4 at a concrete input: limit 5 with 5 logged queries rejects
the invocation, and a limit of 0 never rejects. -/
theorem c4_member_quota_witness :
    (∀ count : Nat, checkMemberLimited 0 count = false)
    ∧ (sauceCommand c4inp).1 = .erroredOut .memberLimited
    ∧ ((sauceCommand c4inp).2.2).filter isLookupEv = [] :=
  c4_member_quota c4inp "123" "https://x/a.png" rfl (by decide) (by decide)
    (by decide) rfl (by decide) (by decide)

/-- C9: the preview reconciler propagates no failure: a failed trace.moe
search and an empty result set both yield no preview, as does a mismatch
between the primary result's anilist id and trace.moe's top match; and with
such a mismatch the pipeline still replies with the primary anime result
(without an attached preview). -/
theorem c9_preview_best_effort (inp : CommandInput) (setting url : String)
    (s : SauceResult) (top : TracemoeDoc) (rest : List TracemoeDoc)
    (hset : inp.targetChannelSetting = some setting)
    (hchan : pyStrIn inp.channelIdStr setting = true)
    (hauth : (inp.authorId == inp.botUserId) = false)
    (hres : (resolveImage inp.urlArg inp.cmdMsg inp.ref inp.reaction
        inp.history).outcome = .resolved url)
    (hvalid : inp.urlValid url = true)
    (hml : checkMemberLimited inp.memberLimit inp.userCount = false)
    (hg : (getSauce inp.store inp.remote url).1 = .ok (some s))
    (hanime : s.resultClass = "AnimeSource")
    (htm : inp.tmResponse = .ok ⟨top :: rest⟩)
    (hlok : inp.loadIdsOk = true)
    (hneq : inp.anilistId ≠ top.anilistId) :
    (∀ (cfg lok : Bool) (aid : Nat) (clip : String) (e : Unit),
        videoPreview cfg (.error e) lok aid clip = (none, false))
    ∧ (∀ (cfg lok : Bool) (aid : Nat) (clip : String),
        videoPreview cfg (.ok ⟨[]⟩) lok aid clip = (none, false))
    ∧ videoPreview inp.tracemoeConfigured inp.tmResponse inp.loadIdsOk
        inp.anilistId inp.previewClip = (none, false)
    ∧ (sauceCommand inp).1 = .replied s false := by
  have hvp : videoPreview inp.tracemoeConfigured inp.tmResponse inp.loadIdsOk
      inp.anilistId inp.previewClip = (none, false) := by
    cases hc : inp.tracemoeConfigured
    · simp [videoPreview]
    · simp [videoPreview, htm, hlok, hneq]
  refine ⟨fun cfg lok aid clip e => by cases cfg <;> simp [videoPreview],
    fun cfg lok aid clip => by cases cfg <;> simp [videoPreview], hvp, ?_⟩
  rcases hr : resolveImage inp.urlArg inp.cmdMsg inp.ref inp.reaction
    inp.history with ⟨out, iic, sh, evs⟩
  rw [hr] at hres
  have hout : out = ResolveOutcome.resolved url := hres
  subst hout
  rcases hgs : getSauce inp.store inp.remote url with ⟨rr, store', evs1⟩
  rw [hgs] at hg
  have hrr : rr = .ok (some s) := hg
  subst hrr
  simp only [sauceCommand, hset, hchan, hauth, hr, saucePhase2, hvalid, hml,
    hgs, hanime, hvp]
  simp [hvp]
  split <;> rfl

/-- Witness for C9 at a concrete input: primary id 100 against trace.moe's
top id 200 withholds the preview while the anime result is still replied. -/
theorem c9_preview_best_effort_witness :
    videoPreview c9inp.tracemoeConfigured c9inp.tmResponse c9inp.loadIdsOk
        c9inp.anilistId c9inp.previewClip = (none, false)
    ∧ (sauceCommand c9inp).1
        = .replied ⟨"AnimeSource", "header", "payload"⟩ false := by
  have h := c9_preview_best_effort c9inp "123" "https://x/a.png"
    ⟨"AnimeSource", "header", "payload"⟩ ⟨200, false⟩ [] rfl (by decide)
    (by decide) (by decide) rfl (by decide) rfl rfl rfl rfl (by decide)
  exact ⟨h.2.2.1, h.2.2.2⟩

end Saucebot
